import Mathlib

/-!
Shallow embedding of the job dispatch and completion-tracking engine of
AlphaWorker (src/AlphaSimulator.py, plus the threaded correlation checker
src/analyzer/auto_correlation_checker.py), together with theorems settling
the specification claims about it.

Modelling conventions:
* A CSV record of the pending-queue file is a `Row`; whether its
  `settings` field parses as JSON is abstracted into the Boolean field
  `settingsOk` (the code attempts `json.loads` on every `settings` value).
  `rawLen` is the record's serialized length in bytes, used only for the
  `os.path.getsize` check of `manage_simulations`.
* Network interactions are parametrized by explicit response values
  (`SubmitResp`, `PollNet`): the environment chooses the response of each
  HTTP request, and the embedded functions compute what the code does
  with it.  `time.sleep` is modelled by an explicit clock.
* The unbounded `while` loops of `manage_simulations` are modelled with
  explicit fuel; the loop-exit condition is the separate predicate
  `loopBreak`, exactly mirroring line 239 of the source.
-/

namespace AlphaWorker

/-- One data record of the pending-queue CSV file
(src/AlphaSimulator.py, consumed by `read_alphas_from_csv_in_batches`).
`payload` identifies the record, `settingsOk` abstracts whether
`json.loads(row['settings'])` succeeds, `rawLen` is its serialized size. -/
structure Row where
  payload : Nat
  settingsOk : Bool
  rawLen : Nat
  deriving DecidableEq, Repr

/-- The pending-queue file (`alpha_list_file_path`): absent on disk, present
but without a header row (so `csv.DictReader.fieldnames` is falsy), or a
header line plus data rows. -/
inductive QueueFile where
  | absent : QueueFile
  | noHeader : QueueFile
  | withHeader (hdr : String) (rows : List Row) : QueueFile
  deriving DecidableEq, Repr

/-- The data rows a queue file holds. -/
def dataRows : QueueFile → List Row
  | .absent => []
  | .noHeader => []
  | .withHeader _ rows => rows

/-- Size in bytes of the queue file as `os.path.getsize` sees it: header
line plus newline, then each record plus newline; an absent or empty file
counts 0 (the code tests `os.path.exists` first). -/
def fileSize : QueueFile → Nat
  | .absent => 0
  | .noHeader => 0
  | .withHeader hdr rows => hdr.length + 1 + (rows.map (fun r => r.rawLen + 1)).sum

/-- The batch-reading loop of `read_alphas_from_csv_in_batches`
(src/AlphaSimulator.py lines 57-68): up to `batchSize` rows are consumed
from the reader; a row whose settings fail to decode is logged and
skipped (`continue`), still consuming its loop iteration; `StopIteration`
breaks out early.  Returns (collected alphas, skipped-and-logged rows,
rows left for the reader). -/
def readBatchLoop : Nat → List Row → List Row × List Row × List Row
  | 0, rows => ([], [], rows)
  | _ + 1, [] => ([], [], [])
  | n + 1, r :: rest =>
    let out := readBatchLoop n rest
    if r.settingsOk then (r :: out.1, out.2.1, out.2.2) else (out.1, r :: out.2.1, out.2.2)

/-- `read_alphas_from_csv_in_batches` (src/AlphaSimulator.py lines 41-80):
absent file returns no alphas and leaves nothing changed; a file without a
header returns `[]` before any write happens; otherwise the batch loop
runs, the remaining rows plus the header are written to a temporary file,
and `os.replace` atomically installs it as the new queue file.
Returns (alphas, new queue file, rows skipped with a logged error). -/
def read_alphas_from_csv_in_batches : QueueFile → Nat → List Row × QueueFile × List Row
  | .absent, _ => ([], .absent, [])
  | .noHeader, _ => ([], .noHeader, [])
  | .withHeader hdr rows, n =>
    let out := readBatchLoop n rows
    (out.1, .withHeader hdr out.2.2, out.2.1)

/-- Crash model for one `read_alphas_from_csv_in_batches` call: the only
durable commit point is `os.replace` (line 73).  A crash strictly before
the replace leaves the original file intact and delivers nothing; once the
replace has happened the call completes and the batch is delivered with
the rewritten file on disk. -/
inductive CrashPoint where
  | beforeReplace : CrashPoint
  | afterReplace : CrashPoint
  deriving DecidableEq, Repr

/-- Observable outcome (delivered jobs, queue file on disk) of a
`read_alphas_from_csv_in_batches` call that may crash at either side of
its atomic `os.replace`. -/
def takeBatchCrash (f : QueueFile) (n : Nat) : CrashPoint → List Row × QueueFile
  | .beforeReplace => ([], f)
  | .afterReplace =>
    let out := read_alphas_from_csv_in_batches f n
    (out.1, out.2.1)

/-- Environment-chosen response to one `POST /simulations` request issued
by `simulate_alpha` (src/AlphaSimulator.py lines 82-117).  `success`
carries the optional `location` header; `authExpired` is a 401 together
with whether the subsequent `sign_in` recovers a session; `rateLimited`
is a 429 with its optional integer Retry-After header; `httpError` is any
other HTTP error status; `netError` a non-HTTP RequestException. -/
inductive SubmitResp where
  | success (loc : Option Nat) : SubmitResp
  | authExpired (reloginOk : Bool) : SubmitResp
  | rateLimited (retryAfter : Option Nat) : SubmitResp
  | httpError : SubmitResp
  | netError : SubmitResp
  deriving DecidableEq, Repr

/-- Retry ceiling of `simulate_alpha` (`max_retries = 5`). -/
def max_retries : Nat := 5

/-- Outcome of one `simulate_alpha` call.  `result` is `some loc` when
the function returned (`loc` the returned location, `none` for the
post-loop failure return), and `none` when the supplied response list ran
out before the loop finished (a model artifact).  `failLogged` records
whether `log_failed_alpha` was called.  `clock` accumulates the seconds
slept inside `simulate_alpha`; `events` lists, per HTTP request issued,
the clock value and the generic-failure attempt counter at that moment. -/
structure SimRun where
  result : Option (Option Nat)
  failLogged : Bool
  clock : Nat
  events : List (Nat × Nat)
  deriving DecidableEq, Repr

/-- The retry loop of `simulate_alpha` (src/AlphaSimulator.py lines
86-117): while `attempt < max_retries`, post the request; on success
return the location header; on 401 re-login and retry (aborting to
`log_failed_alpha` if the re-login fails); on 429 sleep the Retry-After
duration (default 60) and retry without touching `attempt`; on any other
error increment `attempt` and, if the ceiling is not yet reached, sleep
10 seconds and retry; once the loop exits, call `log_failed_alpha` and
return `None`. -/
def simulate_alphaGo : Nat → Nat → List SubmitResp → SimRun
  | attempt, clock, [] =>
    if max_retries ≤ attempt then ⟨some none, true, clock, []⟩
    else ⟨none, false, clock, []⟩
  | attempt, clock, r :: rest =>
    if max_retries ≤ attempt then ⟨some none, true, clock, []⟩
    else
      match r with
      | .success loc => ⟨some loc, false, clock, [(clock, attempt)]⟩
      | .authExpired true =>
        let out := simulate_alphaGo attempt clock rest
        { out with events := (clock, attempt) :: out.events }
      | .authExpired false => ⟨some none, true, clock, [(clock, attempt)]⟩
      | .rateLimited h =>
        let out := simulate_alphaGo attempt (clock + h.getD 60) rest
        { out with events := (clock, attempt) :: out.events }
      | .httpError =>
        if attempt + 1 < max_retries then
          let out := simulate_alphaGo (attempt + 1) (clock + 10) rest
          { out with events := (clock, attempt) :: out.events }
        else ⟨some none, true, clock, [(clock, attempt)]⟩
      | .netError =>
        if attempt + 1 < max_retries then
          let out := simulate_alphaGo (attempt + 1) (clock + 10) rest
          { out with events := (clock, attempt) :: out.events }
        else ⟨some none, true, clock, [(clock, attempt)]⟩

/-- `simulate_alpha` starts with attempt counter 0 and clock 0. -/
def simulate_alpha (rs : List SubmitResp) : SimRun :=
  simulate_alphaGo 0 0 rs

/-- Body of a successful `GET` on a simulation progress URL: the
`Retry-After` header (absent modelled as its parsed default 0), the
`status` field, the optional `alpha` identifier, and whether the
follow-up `GET /alphas/{id}` detail fetch would succeed. -/
structure PollResponse where
  retryAfter : Nat
  status : String
  alphaId : Option Nat
  fetchOk : Bool
  deriving DecidableEq, Repr

/-- Environment-chosen outcome of one `GET` on a progress URL issued by
`check_simulation_progress`: a successful response, a 401, another HTTP
error, or a non-HTTP network error. -/
inductive PollNet where
  | ok (r : PollResponse) : PollNet
  | auth401 : PollNet
  | httpOther : PollNet
  | netError : PollNet
  deriving DecidableEq, Repr

/-- `check_simulation_progress` (src/AlphaSimulator.py lines 150-174):
returns the response on success; on a 401 it re-logs-in and, if the
re-login produced a session, retries the `GET` exactly once, returning
that response on success and `None` on any failure; every other error
returns `None`.  Also counted: the number of `sign_in` calls made and the
number of progress `GET`s issued. -/
def check_simulation_progress (first : PollNet) (reloginOk : Bool)
    (second : PollNet) : Option PollResponse × Nat × Nat :=
  match first with
  | .ok r => (some r, 0, 1)
  | .auth401 =>
    if reloginOk then
      match second with
      | .ok r => (some r, 1, 2)
      | _ => (none, 1, 2)
    else (none, 1, 1)
  | .httpOther => (none, 0, 1)
  | .netError => (none, 0, 1)

/-- State of one `AlphaSimulator` instance: the queue file on disk, the
in-memory `sim_queue_ls`, the `active_simulations` list of tracking
URLs, the Result Sink (`simulated_alphas` file, as the recorded alpha
ids), the Failure Sink (`fail_alphas` file), and the `max_concurrent`
and `batch_number_for_every_queue` configuration. -/
structure MState where
  queueFile : QueueFile
  simQueue : List Row
  active : List Nat
  resultSink : List Nat
  failSink : List Row
  maxConcurrent : Nat
  batchSize : Nat
  deriving DecidableEq, Repr

/-- Per-handle polling environment: the first `GET` outcome, whether a
re-login (if one happens) succeeds, and the retried `GET` outcome. -/
def PollEnv := Nat → PollNet × Bool × PollNet

/-- The `Option` result `check_simulation_status` sees for one handle. -/
def pollHandle (env : PollEnv) (h : Nat) : Option PollResponse :=
  (check_simulation_progress (env h).1 (env h).2.1 (env h).2.2).1

/-- Whether a handle survives its poll in `check_simulation_status`
(lines 183-194): `None` responses are retried next cycle; a response
whose `Retry-After` is non-zero stays active; `Retry-After == 0` removes
the handle. -/
def handleKept (pr : Option PollResponse) : Bool :=
  match pr with
  | none => true
  | some r => r.retryAfter != 0

/-- The Result Sink record one terminal poll produces (lines 193-215): a
record is appended only when `Retry-After == 0`, the status is exactly
"COMPLETE", the `alpha` id is present (truthy), and the detail fetch
succeeds; every other terminal outcome only logs a warning. -/
def completedRecord (pr : Option PollResponse) : Option Nat :=
  match pr with
  | none => none
  | some r =>
    if r.retryAfter = 0 ∧ r.status = "COMPLETE" ∧ r.alphaId.isSome ∧ r.fetchOk then
      r.alphaId
    else none

/-- `check_simulation_status` (src/AlphaSimulator.py lines 176-218):
iterates over a copy of `active_simulations`, removing each handle whose
poll answered with `Retry-After == 0` and appending one Result Sink
record for each removed handle that reported status "COMPLETE" with an
alpha id and whose detail fetch succeeded.  The Failure Sink is never
touched here. -/
def check_simulation_status (env : PollEnv) (s : MState) : MState :=
  { s with
    active := s.active.filter (fun h => handleKept (pollHandle env h)),
    resultSink := s.resultSink ++ s.active.filterMap (fun h => completedRecord (pollHandle env h)) }

/-- Refill of the in-memory queue (`self.sim_queue_ls =
self.read_alphas_from_csv_in_batches(self.batch_number_for_every_queue)`,
lines 137 and 233). -/
def refillQueue (s : MState) : MState :=
  let out := read_alphas_from_csv_in_batches s.queueFile s.batchSize
  { s with simQueue := out.1, queueFile := out.2.1 }

/-- `load_new_alpha_and_simulate` (src/AlphaSimulator.py lines 135-148):
refill the in-memory queue if empty and return if still empty; return
without popping when the active set is already at `max_concurrent`;
otherwise pop the head job and run `simulate_alpha` on it (the submission
responses are supplied by `subRs`), appending the returned location to
`active_simulations` when one is returned; a `simulate_alpha` failure has
already appended the job to the Failure Sink (`log_failed_alpha`,
lines 119-133, which appends exactly one row per call). -/
def loadAfterRefill (subRs : List SubmitResp) (s1 : MState) : MState :=
  match s1.simQueue with
  | [] => s1
  | alpha :: rest =>
    if s1.maxConcurrent ≤ s1.active.length then s1
    else
      let run := simulate_alpha subRs
      match run.result with
      | some (some loc) => { s1 with simQueue := rest, active := s1.active ++ [loc] }
      | some none =>
        if run.failLogged then { s1 with simQueue := rest, failSink := s1.failSink ++ [alpha] }
        else { s1 with simQueue := rest }
      | none => { s1 with simQueue := rest }

/-- The guard structure of `load_new_alpha_and_simulate`: the refill
happens first; the body `loadAfterRefill` is everything from line 138 on. -/
def load_new_alpha_and_simulate (subRs : List SubmitResp) (s : MState) : MState :=
  loadAfterRefill subRs (if s.simQueue.isEmpty then refillQueue s else s)

/-- States reachable by the control flow of `manage_simulations`: from a
freshly constructed `AlphaSimulator` (empty active set and in-memory
queue), any interleaving of status checks, queue refills and
load-and-submit steps, each under an arbitrary network environment. -/
inductive Reach : MState → Prop where
  | init (qf : QueueFile) (mc bs : Nat) : Reach ⟨qf, [], [], [], [], mc, bs⟩
  | check (env : PollEnv) {s : MState} : Reach s → Reach (check_simulation_status env s)
  | load (subRs : List SubmitResp) {s : MState} : Reach s → Reach (load_new_alpha_and_simulate subRs s)
  | refill {s : MState} : Reach s → Reach (refillQueue s)

/-- The inner top-up loop of `manage_simulations` (lines 231-236), with
explicit fuel standing for the unbounded `while`: while the active set is
below `max_concurrent`, refill the in-memory queue when empty (breaking
out if the file yields nothing) and call `load_new_alpha_and_simulate`. -/
def manageInner (subRs : List SubmitResp) : Nat → MState → MState
  | 0, s => s
  | f + 1, s =>
    if s.maxConcurrent ≤ s.active.length then s
    else
      let s1 := if s.simQueue.isEmpty then refillQueue s else s
      if s1.simQueue.isEmpty then s1
      else manageInner subRs f (load_new_alpha_and_simulate subRs s1)

/-- The loop-exit test of `manage_simulations` (lines 238-241): break
when the in-memory queue and the active set are empty and the queue file
is not "present", where present means it exists with size strictly
greater than 50 bytes. -/
def loopBreak (s : MState) : Bool :=
  s.simQueue.isEmpty && s.active.isEmpty && !(decide (50 < fileSize s.queueFile))

/-- Whether a state has no unconsumed work at all: empty in-memory
queue, empty active set, and no data row left in the queue file.  This is
the condition the specification names for termination. -/
def queueDrained (s : MState) : Bool :=
  s.simQueue.isEmpty && s.active.isEmpty && (dataRows s.queueFile).isEmpty

/-- Result of a fuelled run of the outer loop: the final state and
whether the loop exited through its break (rather than running out of
model fuel). -/
structure RunOut where
  state : MState
  terminated : Bool
  deriving DecidableEq, Repr

/-- The outer loop of `manage_simulations` (src/AlphaSimulator.py lines
227-243) with explicit fuel: each cycle runs `check_simulation_status`,
tops up via the inner loop, then breaks if `loopBreak` holds. -/
def manage_simulations (env : PollEnv) (subRs : List SubmitResp)
    (innerFuel : Nat) : Nat → MState → RunOut
  | 0, s => ⟨s, false⟩
  | f + 1, s =>
    let s1 := check_simulation_status env s
    let s2 := manageInner subRs innerFuel s1
    if loopBreak s2 then ⟨s2, true⟩
    else manage_simulations env subRs innerFuel f s2

/-- Polling environment of the all-success scenario: every progress
request answers immediately with a terminal COMPLETE status, an alpha id
and a successful detail fetch. -/
def happyPollEnv : PollEnv :=
  fun h => (.ok ⟨0, "COMPLETE", some h, true⟩, true, .netError)

/-- Submission environment of the all-success scenario: the first
`POST /simulations` succeeds and returns a location. -/
def happySubmit : List SubmitResp := [.success (some 0)]

/-- Initial state for the 120-job scenario: a queue file with the header
written by `AlphaCreator.save_alphas_to_csv` and 120 well-formed records,
`max_concurrent = 3`, `batch_number_for_every_queue = 20` (the defaults
`simulate_alphas` passes in src/main.py). -/
def scenarioInit : MState :=
  ⟨.withHeader "type,settings,regular" (List.replicate 120 ⟨0, true, 300⟩),
   [], [], [], [], 3, 20⟩

/-- The 120-job scenario run of `manage_simulations` (fuel is a model
bound on the two unbounded while loops, large enough not to bind). -/
def scenarioOut : RunOut :=
  manage_simulations happyPollEnv happySubmit 8 60 scenarioInit

/-- A header-only queue file whose header line is longer than 50 bytes,
together with an otherwise finished state. -/
def wideHeaderState : MState :=
  ⟨.withHeader "type,settings,regular,extra_column_one,extra_column_two" [],
   [], [], [], [], 3, 20⟩

/-- Phase of one worker thread of `AutoCorrelationChecker` with respect
to session renewal (src/analyzer/auto_correlation_checker.py,
`check_single_alpha` lines 155-162): it has decided to renew
(`beforeRenew`: a 401 was observed with `count % 5 == 0`), it is inside
`self.sign_in()` (`inLogin`), or the assignment `self.session = ...` is
done (`afterLogin`). -/
inductive RenewPhase where
  | beforeRenew : RenewPhase
  | inLogin : RenewPhase
  | afterLogin : RenewPhase
  deriving DecidableEq, Repr

/-- Joint renewal phases of two worker threads of the
`ThreadPoolExecutor` in `AutoCorrelationChecker.run`. -/
structure CheckerState where
  worker1 : RenewPhase
  worker2 : RenewPhase
  deriving DecidableEq, Repr

/-- Interleavings of two `check_single_alpha` workers that both decided
to renew the shared session.  The source guards the renewal with nothing:
`self.result_lock` is taken only inside `save_result`, and the 401 branch
runs `self.session = self.sign_in()` directly, so each worker may enter
and leave `sign_in` independently of the other's phase. -/
inductive CheckerReach : CheckerState → Prop where
  | start : CheckerReach ⟨.beforeRenew, .beforeRenew⟩
  | enter1 {w : RenewPhase} : CheckerReach ⟨.beforeRenew, w⟩ → CheckerReach ⟨.inLogin, w⟩
  | enter2 {w : RenewPhase} : CheckerReach ⟨w, .beforeRenew⟩ → CheckerReach ⟨w, .inLogin⟩
  | leave1 {w : RenewPhase} : CheckerReach ⟨.inLogin, w⟩ → CheckerReach ⟨.afterLogin, w⟩
  | leave2 {w : RenewPhase} : CheckerReach ⟨w, .inLogin⟩ → CheckerReach ⟨w, .afterLogin⟩

theorem readBatchLoop_eq (n : Nat) (rows : List Row) :
    readBatchLoop n rows =
      ((rows.take n).filter (fun r => r.settingsOk),
       (rows.take n).filter (fun r => !r.settingsOk),
       rows.drop n) := by
  induction n generalizing rows with
  | zero => simp [readBatchLoop]
  | succ n ih =>
    cases rows with
    | nil => simp [readBatchLoop]
    | cons r rest =>
      simp only [readBatchLoop, ih, List.take_succ_cons, List.drop_succ_cons,
        List.filter_cons]
      cases h : r.settingsOk <;> simp [h]

theorem simulate_alphaGo_events_cons (a c : Nat) (r : SubmitResp)
    (rest : List SubmitResp) (ha : a < max_retries) :
    ∃ t, (simulate_alphaGo a c (r :: rest)).events = (c, a) :: t := by
  have hna : ¬ max_retries ≤ a := Nat.not_le.mpr ha
  cases r with
  | success loc => exact ⟨[], by simp [simulate_alphaGo, hna]⟩
  | authExpired ok =>
    cases ok with
    | true =>
      refine ⟨(simulate_alphaGo a c rest).events, ?_⟩
      simp [simulate_alphaGo, hna]
    | false => exact ⟨[], by simp [simulate_alphaGo, hna]⟩
  | rateLimited h =>
    refine ⟨(simulate_alphaGo a (c + h.getD 60) rest).events, ?_⟩
    simp [simulate_alphaGo, hna]
  | httpError =>
    by_cases hlt : a + 1 < max_retries
    · refine ⟨(simulate_alphaGo (a + 1) (c + 10) rest).events, ?_⟩
      simp [simulate_alphaGo, hna, hlt]
    · exact ⟨[], by simp [simulate_alphaGo, hna, hlt]⟩
  | netError =>
    by_cases hlt : a + 1 < max_retries
    · refine ⟨(simulate_alphaGo (a + 1) (c + 10) rest).events, ?_⟩
      simp [simulate_alphaGo, hna, hlt]
    · exact ⟨[], by simp [simulate_alphaGo, hna, hlt]⟩

theorem simulate_alphaGo_generic_fail (rs : List SubmitResp)
    (hgen : ∀ r ∈ rs, r = .httpError ∨ r = .netError) :
    ∀ a c, max_retries - a ≤ rs.length →
      (simulate_alphaGo a c rs).result = some none ∧
      (simulate_alphaGo a c rs).failLogged = true := by
  induction rs with
  | nil =>
    intro a c hlen
    simp only [List.length_nil] at hlen
    have : max_retries ≤ a := by omega
    simp [simulate_alphaGo, this]
  | cons r rest ih =>
    intro a c hlen
    by_cases hna : max_retries ≤ a
    · simp [simulate_alphaGo, hna]
    · have hr := hgen r (List.mem_cons_self r rest)
      have hrest : ∀ x ∈ rest, x = SubmitResp.httpError ∨ x = SubmitResp.netError :=
        fun x hx => hgen x (List.mem_cons_of_mem r hx)
      have hlen' : max_retries - (a + 1) ≤ rest.length := by
        simp only [List.length_cons] at hlen; omega
      rcases hr with hr | hr <;> subst hr <;>
        by_cases hlt : a + 1 < max_retries <;>
          simp [simulate_alphaGo, hna, hlt, ih hrest (a + 1) _ hlen']

theorem check_simulation_status_max (env : PollEnv) (s : MState) :
    (check_simulation_status env s).maxConcurrent = s.maxConcurrent := rfl

theorem check_simulation_status_active_le (env : PollEnv) (s : MState) :
    (check_simulation_status env s).active.length ≤ s.active.length :=
  List.length_filter_le _ _

theorem refillQueue_active (s : MState) : (refillQueue s).active = s.active := rfl

theorem refillQueue_max (s : MState) :
    (refillQueue s).maxConcurrent = s.maxConcurrent := rfl

theorem loadAfterRefill_bounded (subRs : List SubmitResp) (s1 : MState)
    (h : s1.active.length ≤ s1.maxConcurrent) :
    (loadAfterRefill subRs s1).active.length ≤ (loadAfterRefill subRs s1).maxConcurrent := by
  unfold loadAfterRefill
  split
  · exact h
  · split
    · exact h
    · next hcap =>
      rcases hr : (simulate_alpha subRs).result with _ | _ | loc
      · simpa [hr] using h
      · by_cases hf : (simulate_alpha subRs).failLogged = true <;> simpa [hr, hf] using h
      · simp only [hr, List.length_append, List.length_cons, List.length_nil]
        omega

theorem load_new_bounded (subRs : List SubmitResp) (s : MState)
    (h : s.active.length ≤ s.maxConcurrent) :
    (load_new_alpha_and_simulate subRs s).active.length ≤
      (load_new_alpha_and_simulate subRs s).maxConcurrent := by
  unfold load_new_alpha_and_simulate
  split
  · exact loadAfterRefill_bounded subRs _ h
  · exact loadAfterRefill_bounded subRs _ h

theorem reach_bounded {s : MState} (h : Reach s) :
    s.active.length ≤ s.maxConcurrent := by
  induction h with
  | init qf mc bs => exact Nat.zero_le mc
  | check env _ ih =>
    exact le_trans (check_simulation_status_active_le _ _) ih
  | load subRs _ ih => exact load_new_bounded subRs _ ih
  | refill _ ih => exact ih

theorem reach_manageInner (subRs : List SubmitResp) (f : Nat) {s : MState}
    (h : Reach s) : Reach (manageInner subRs f s) := by
  induction f generalizing s with
  | zero => exact h
  | succ f ih =>
    unfold manageInner
    split
    · exact h
    · have h1 : Reach (if s.simQueue.isEmpty then refillQueue s else s) := by
        split
        · exact Reach.refill h
        · exact h
      dsimp only
      generalize hg : (if s.simQueue.isEmpty = true then refillQueue s else s) = t at h1 ⊢
      split
      · exact h1
      · exact ih (Reach.load subRs h1)

theorem reach_manage (env : PollEnv) (subRs : List SubmitResp)
    (fi fo : Nat) {s : MState} (h : Reach s) :
    Reach (manage_simulations env subRs fi fo s).state := by
  induction fo generalizing s with
  | zero => exact h
  | succ fo ih =>
    unfold manage_simulations
    dsimp only
    generalize hg : manageInner subRs fi (check_simulation_status env s) = t
    have h2 : Reach t := hg ▸ reach_manageInner subRs fi (Reach.check env h)
    by_cases hb : loopBreak t = true
    · simp only [hb, if_true]
      exact h2
    · simp only [hb, if_false, Bool.false_eq_true]
      exact ih h2

theorem simulate_alphaGo_rateLimited (a c w : Nat) (rest : List SubmitResp)
    (ha : a < max_retries) :
    (simulate_alphaGo a c (.rateLimited (some w) :: rest)).events =
      (c, a) :: (simulate_alphaGo a (c + w) rest).events := by
  have hna : ¬ max_retries ≤ a := Nat.not_le.mpr ha
  simp [simulate_alphaGo, hna]

theorem take_drop_disjoint {α : Type} {l : List α} (n : Nat) (hnd : l.Nodup) :
    ∀ r ∈ l.take n, r ∉ l.drop n := by
  have h2 := hnd
  rw [← List.take_append_drop n l] at h2
  exact fun r hr => (List.nodup_append.mp h2).2.2 hr

theorem read_batch_fst (hdr : String) (rows : List Row) (n : Nat) :
    (read_alphas_from_csv_in_batches (.withHeader hdr rows) n).1 =
      (rows.take n).filter (fun x => x.settingsOk) := by
  simp [read_alphas_from_csv_in_batches, readBatchLoop_eq]

theorem read_batch_file (hdr : String) (rows : List Row) (n : Nat) :
    (read_alphas_from_csv_in_batches (.withHeader hdr rows) n).2.1 =
      .withHeader hdr (rows.drop n) := by
  simp [read_alphas_from_csv_in_batches, readBatchLoop_eq]

theorem read_batch_skipped (hdr : String) (rows : List Row) (n : Nat) :
    (read_alphas_from_csv_in_batches (.withHeader hdr rows) n).2.2 =
      (rows.take n).filter (fun x => !x.settingsOk) := by
  simp [read_alphas_from_csv_in_batches, readBatchLoop_eq]

/-- C1: for every reachable state of the control loop
(`manage_simulations` / `load_new_alpha_and_simulate`), the number of
tracking handles in the active set never exceeds `max_concurrent`:
`active_simulations.length ≤ max_concurrent` holds after every operation
(status check, queue refill, load-and-submit) and after every fuelled run
of the outer loop, for every `max_concurrent`. -/
theorem claim_C1_active_set_bounded :
    (∀ s : MState, Reach s → s.active.length ≤ s.maxConcurrent) ∧
    (∀ (env : PollEnv) (subRs : List SubmitResp) (fi fo : Nat) (s : MState), Reach s →
      (manage_simulations env subRs fi fo s).state.active.length ≤
        (manage_simulations env subRs fi fo s).state.maxConcurrent) :=
  ⟨fun _ h => reach_bounded h,
   fun env subRs fi fo _ h => reach_bounded (reach_manage env subRs fi fo h)⟩

/-- C1 witness: the bound holds at the concrete state reached by one
load-and-submit step from a fresh simulator with `max_concurrent = 3`. -/
theorem claim_C1_witness :
    (load_new_alpha_and_simulate [] ⟨QueueFile.absent, [], [], [], [], 3, 20⟩).active.length ≤
      (load_new_alpha_and_simulate [] ⟨QueueFile.absent, [], [], [], [], 3, 20⟩).maxConcurrent :=
  claim_C1_active_set_bounded.1 _ (Reach.load [] (Reach.init QueueFile.absent 3 20))

/-- C2 counterexample: a queue file holding a single record whose
settings field fails to parse.  A completed `takeBatch(1)` call returns
nothing and rewrites the file without the record, so the union of the
remaining file contents and the taken jobs does not equal the original
job set: the record is lost, refuting the claim for arbitrary queue
files. -/
theorem claim_C2_counterexample :
    ¬((takeBatchCrash (.withHeader "type,settings,regular" [⟨7, false, 40⟩]) 1 .afterReplace).1 ++
        dataRows (takeBatchCrash (.withHeader "type,settings,regular" [⟨7, false, 40⟩]) 1 .afterReplace).2 =
      [(⟨7, false, 40⟩ : Row)]) := by decide

/-- C2 (amended): for every queue file whose records all have parseable
settings and are pairwise distinct, `takeBatch(n)` removes the returned
jobs from the head durably: whether the process crashes before the
atomic `os.replace` (nothing delivered, file unchanged) or the call
completes (batch delivered, remainder plus header rewritten), the
concatenation of taken jobs and remaining file contents equals the
original job set (no loss) and no taken job is still in the file (no
re-delivery).  Records with unparseable settings are dropped entirely
and are excluded from this guarantee. -/
theorem claim_C2_amended_crash_safe (hdr : String) (rows : List Row) (n : Nat)
    (c : CrashPoint) (hok : ∀ r ∈ rows, r.settingsOk = true) (hnd : rows.Nodup) :
    (takeBatchCrash (.withHeader hdr rows) n c).1 ++
        dataRows (takeBatchCrash (.withHeader hdr rows) n c).2 = rows ∧
    ∀ r ∈ (takeBatchCrash (.withHeader hdr rows) n c).1,
      r ∉ dataRows (takeBatchCrash (.withHeader hdr rows) n c).2 := by
  cases c with
  | beforeReplace => simp [takeBatchCrash, dataRows]
  | afterReplace =>
    have hfil : (rows.take n).filter (fun x => x.settingsOk) = rows.take n :=
      List.filter_eq_self.mpr (fun a ha => hok a (List.take_subset n rows ha))
    have h1 : (takeBatchCrash (.withHeader hdr rows) n .afterReplace).1 = rows.take n := by
      simp [takeBatchCrash, read_batch_fst, hfil]
    have h2 : dataRows (takeBatchCrash (.withHeader hdr rows) n .afterReplace).2 = rows.drop n := by
      simp [takeBatchCrash, read_batch_file, dataRows]
    rw [h1, h2]
    exact ⟨List.take_append_drop n rows, take_drop_disjoint n hnd⟩

/-- C2 witness: the amended crash-safety statement evaluated on a
two-record all-well-formed queue file with `n = 1`, crash after the
replace. -/
theorem claim_C2_witness :
    (takeBatchCrash (.withHeader "type,settings,regular" [⟨1, true, 40⟩, ⟨2, true, 40⟩]) 1 .afterReplace).1 ++
        dataRows (takeBatchCrash (.withHeader "type,settings,regular" [⟨1, true, 40⟩, ⟨2, true, 40⟩]) 1 .afterReplace).2 =
      [⟨1, true, 40⟩, ⟨2, true, 40⟩] ∧
    ∀ r ∈ (takeBatchCrash (.withHeader "type,settings,regular" [⟨1, true, 40⟩, ⟨2, true, 40⟩]) 1 .afterReplace).1,
      r ∉ dataRows (takeBatchCrash (.withHeader "type,settings,regular" [⟨1, true, 40⟩, ⟨2, true, 40⟩]) 1 .afterReplace).2 :=
  claim_C2_amended_crash_safe "type,settings,regular" [⟨1, true, 40⟩, ⟨2, true, 40⟩] 1
    .afterReplace (by decide) (by decide)

/-- C6: `read_alphas_from_csv_in_batches` on an absent or empty queue
file returns an empty batch without error and leaves the file untouched;
on a file with a header, it always returns (never fails), its batch being
exactly the parseable records of the consumed prefix, while every record
whose settings fail to parse is excluded from the batch and appears in
the skipped-with-a-logged-error list. -/
theorem claim_C6_empty_and_malformed (n : Nat) (hdr : String) (rows : List Row) (r : Row) :
    read_alphas_from_csv_in_batches .absent n = ([], .absent, []) ∧
    read_alphas_from_csv_in_batches .noHeader n = ([], .noHeader, []) ∧
    (read_alphas_from_csv_in_batches (.withHeader hdr rows) n).1 =
      (rows.take n).filter (fun x => x.settingsOk) ∧
    (r ∈ rows.take n → r.settingsOk = false →
      r ∉ (read_alphas_from_csv_in_batches (.withHeader hdr rows) n).1 ∧
      r ∈ (read_alphas_from_csv_in_batches (.withHeader hdr rows) n).2.2) := by
  refine ⟨rfl, rfl, read_batch_fst hdr rows n, fun hmem hbad => ⟨?_, ?_⟩⟩
  · rw [read_batch_fst]
    intro hin
    have hx := (List.mem_filter.mp hin).2
    rw [hbad] at hx
    exact Bool.false_ne_true hx
  · rw [read_batch_skipped]
    exact List.mem_filter.mpr ⟨hmem, by simp [hbad]⟩

/-- C6 witness: the malformed-record clause evaluated on a one-record
file whose settings fail to parse. -/
theorem claim_C6_witness :
    (⟨0, false, 12⟩ : Row) ∉
      (read_alphas_from_csv_in_batches (.withHeader "type,settings,regular" [⟨0, false, 12⟩]) 1).1 ∧
    (⟨0, false, 12⟩ : Row) ∈
      (read_alphas_from_csv_in_batches (.withHeader "type,settings,regular" [⟨0, false, 12⟩]) 1).2.2 :=
  (claim_C6_empty_and_malformed 1 "type,settings,regular" [⟨0, false, 12⟩] ⟨0, false, 12⟩).2.2.2
    (by decide) (by decide)

/-- C7: when a submission receives a 429 with a server-supplied
Retry-After of `n` seconds, `simulate_alpha` sleeps `n` seconds and then
reissues the same request: the next submission event happens at clock
`c + n` (at least `n` seconds after the rate-limited attempt at clock
`c`) and carries the same generic-failure attempt counter `a`, so the
rate-limited attempt does not count against the retry ceiling. -/
theorem claim_C7_rate_limited_wait (a c n : Nat) (r2 : SubmitResp)
    (rest : List SubmitResp) (ha : a < max_retries) :
    (simulate_alphaGo a c (.rateLimited (some n) :: r2 :: rest)).events.take 2 =
      [(c, a), (c + n, a)] := by
  obtain ⟨t, ht⟩ := simulate_alphaGo_events_cons a (c + n) r2 rest ha
  rw [simulate_alphaGo_rateLimited a c n (r2 :: rest) ha, ht]
  rfl

/-- C7 witness: a 429 with Retry-After 60 followed by a success, from a
fresh call: the two submission events are at clocks 0 and 60 with the
attempt counter 0 both times. -/
theorem claim_C7_witness :
    (simulate_alphaGo 0 0 [.rateLimited (some 60), .success (some 1)]).events.take 2 =
      [(0, 0), (60, 0)] :=
  claim_C7_rate_limited_wait 0 0 60 (.success (some 1)) [] (by decide)

/-- C9: the state in which both worker threads of the correlation
checker are simultaneously inside `sign_in` is reachable, because the
401 branch of `check_single_alpha` runs `self.session = self.sign_in()`
under no lock (`result_lock` guards only `save_result`).  This refutes
exclusive session renewal: two login attempts proceed at the same time
instead of one requester waiting for and reusing the other's outcome. -/
theorem claim_C9_double_login : CheckerReach ⟨.inLogin, .inLogin⟩ :=
  CheckerReach.enter2 (CheckerReach.enter1 CheckerReach.start)

/-- C10: a record whose settings field fails to parse is permanently
deleted by `read_alphas_from_csv_in_batches`: it is neither in the
returned batch nor in the rewritten remainder file, and it still
consumes one of the `n` batch slots — the batch length is the count of
parseable records among the first `n`, so the call can return fewer than
`n` jobs even though well-formed jobs remain in the file. -/
theorem claim_C10_malformed_consumes_slot (hdr : String) (rows : List Row)
    (n : Nat) (r : Row) (hnd : rows.Nodup) (hmem : r ∈ rows.take n)
    (hbad : r.settingsOk = false) :
    r ∉ (read_alphas_from_csv_in_batches (.withHeader hdr rows) n).1 ∧
    r ∉ dataRows (read_alphas_from_csv_in_batches (.withHeader hdr rows) n).2.1 ∧
    (read_alphas_from_csv_in_batches (.withHeader hdr rows) n).1.length =
      (rows.take n).countP (fun x => x.settingsOk) := by
  refine ⟨?_, ?_, ?_⟩
  · rw [read_batch_fst]
    intro hin
    have hx := (List.mem_filter.mp hin).2
    rw [hbad] at hx
    exact Bool.false_ne_true hx
  · rw [read_batch_file]
    exact take_drop_disjoint n hnd r hmem
  · rw [read_batch_fst]
    exact (List.countP_eq_length_filter _ _).symm

/-- C10 witness: a file holding a malformed record followed by a
well-formed one, with `n = 1`: the malformed record is gone from both
batch and remainder, and the batch has length 0 even though a well-formed
job remains in the file. -/
theorem claim_C10_witness :
    (⟨0, false, 5⟩ : Row) ∉
      (read_alphas_from_csv_in_batches (.withHeader "type,settings,regular" [⟨0, false, 5⟩, ⟨1, true, 5⟩]) 1).1 ∧
    (⟨0, false, 5⟩ : Row) ∉
      dataRows (read_alphas_from_csv_in_batches (.withHeader "type,settings,regular" [⟨0, false, 5⟩, ⟨1, true, 5⟩]) 1).2.1 ∧
    (read_alphas_from_csv_in_batches (.withHeader "type,settings,regular" [⟨0, false, 5⟩, ⟨1, true, 5⟩]) 1).1.length =
      (([⟨0, false, 5⟩, ⟨1, true, 5⟩] : List Row).take 1).countP (fun x => x.settingsOk) :=
  claim_C10_malformed_consumes_slot "type,settings,regular" [⟨0, false, 5⟩, ⟨1, true, 5⟩] 1
    ⟨0, false, 5⟩ (by decide) (by decide) rfl

/-- C3 counterexample: a handle whose poll answers with a zero wait hint
and the terminal status "ERROR".  `check_simulation_status` removes the
handle from the active set but writes nothing at all: the Failure Sink
stays empty (the claim demands exactly one record there) and so does the
Result Sink — the non-COMPLETE terminal branch only logs a warning. -/
theorem claim_C3_counterexample :
    (check_simulation_status (fun _ => (.ok ⟨0, "ERROR", none, true⟩, true, .netError))
        ⟨.absent, [], [7], [], [], 3, 20⟩).active = [] ∧
    (check_simulation_status (fun _ => (.ok ⟨0, "ERROR", none, true⟩, true, .netError))
        ⟨.absent, [], [7], [], [], 3, 20⟩).failSink = [] ∧
    (check_simulation_status (fun _ => (.ok ⟨0, "ERROR", none, true⟩, true, .netError))
        ⟨.absent, [], [7], [], [], 3, 20⟩).resultSink = [] := by decide

/-- C3 (amended): for every polled handle whose status response carries a
zero wait hint, the tracker removes the handle from the active set; it
writes one Result Sink record exactly when the remote status is the
success code "COMPLETE", an alpha id is present, and the detail fetch
succeeds; every other terminal outcome is only logged — nothing is ever
written to the Failure Sink by the tracker. -/
theorem claim_C3_amended_terminal (env : PollEnv) (s : MState) (h : Nat)
    (r : PollResponse) (hmem : h ∈ s.active) (hp : pollHandle env h = some r)
    (hz : r.retryAfter = 0) :
    h ∉ (check_simulation_status env s).active ∧
    (check_simulation_status env s).failSink = s.failSink ∧
    (check_simulation_status env s).resultSink =
      s.resultSink ++ s.active.filterMap (fun h2 => completedRecord (pollHandle env h2)) ∧
    ∀ aid : Nat, (completedRecord (pollHandle env h) = some aid ↔
      (r.status = "COMPLETE" ∧ r.alphaId = some aid ∧ r.fetchOk = true)) := by
  refine ⟨?_, rfl, rfl, ?_⟩
  · intro hin
    have hk := List.of_mem_filter hin
    rw [hp] at hk
    simp [handleKept, hz] at hk
  · intro aid
    rw [hp]
    simp only [completedRecord, hz]
    split_ifs with hc
    · constructor
      · intro ha
        exact ⟨hc.2.1, ha, hc.2.2.2⟩
      · exact fun hx => hx.2.1
    · constructor
      · intro hx
        exact absurd hx (by simp)
      · rintro ⟨h1, h2, h3⟩
        exact absurd ⟨trivial, h1, by simp [h2], h3⟩ hc

/-- C3 witness: the amended statement evaluated for a handle whose poll
is terminal COMPLETE with alpha id 9 and a successful detail fetch. -/
theorem claim_C3_witness :
    4 ∉ (check_simulation_status (fun _ => (.ok ⟨0, "COMPLETE", some 9, true⟩, true, .netError))
        ⟨.absent, [], [4], [], [], 3, 20⟩).active ∧
    (check_simulation_status (fun _ => (.ok ⟨0, "COMPLETE", some 9, true⟩, true, .netError))
        ⟨.absent, [], [4], [], [], 3, 20⟩).failSink = [] ∧
    (check_simulation_status (fun _ => (.ok ⟨0, "COMPLETE", some 9, true⟩, true, .netError))
        ⟨.absent, [], [4], [], [], 3, 20⟩).resultSink =
      [] ++ [4].filterMap (fun h2 => completedRecord
        (pollHandle (fun _ => (.ok ⟨0, "COMPLETE", some 9, true⟩, true, .netError)) h2)) ∧
    ∀ aid : Nat, (completedRecord (pollHandle
        (fun _ => (.ok ⟨0, "COMPLETE", some 9, true⟩, true, .netError)) 4) = some aid ↔
      ((⟨0, "COMPLETE", some 9, true⟩ : PollResponse).status = "COMPLETE" ∧
        (⟨0, "COMPLETE", some 9, true⟩ : PollResponse).alphaId = some aid ∧
        (⟨0, "COMPLETE", some 9, true⟩ : PollResponse).fetchOk = true)) :=
  claim_C3_amended_terminal (fun _ => (.ok ⟨0, "COMPLETE", some 9, true⟩, true, .netError))
    ⟨.absent, [], [4], [], [], 3, 20⟩ 4 ⟨0, "COMPLETE", some 9, true⟩ (by decide) rfl rfl

/-- C4: a job whose submission fails with generic (non-401, non-429)
errors at least `max_retries` times: `simulate_alpha` stops retrying and
returns failure, the job's payload is appended exactly once to the
Failure Sink, the active set is unchanged (so the job is never polled),
and the Result Sink is untouched. -/
theorem claim_C4_submit_exhausted (subRs : List SubmitResp) (s : MState)
    (alpha : Row) (rest : List Row)
    (hgen : ∀ r ∈ subRs, r = .httpError ∨ r = .netError)
    (hlen : max_retries ≤ subRs.length)
    (hq : s.simQueue = alpha :: rest)
    (hcap : s.active.length < s.maxConcurrent) :
    (simulate_alpha subRs).result = some none ∧
    (load_new_alpha_and_simulate subRs s).failSink = s.failSink ++ [alpha] ∧
    (load_new_alpha_and_simulate subRs s).active = s.active ∧
    (load_new_alpha_and_simulate subRs s).resultSink = s.resultSink := by
  have hfail := simulate_alphaGo_generic_fail subRs hgen 0 0 (by omega)
  have hne : s.simQueue.isEmpty = false := by rw [hq]; rfl
  have hnle : ¬ s.maxConcurrent ≤ s.active.length := Nat.not_le.mpr hcap
  refine ⟨hfail.1, ?_⟩
  unfold load_new_alpha_and_simulate loadAfterRefill
  simp only [hne, Bool.false_eq_true, if_false, hq]
  simp only [simulate_alpha] at hfail ⊢
  simp [hnle, hfail.1, hfail.2, hq]

/-- C4 witness: five consecutive generic HTTP errors on a fresh
simulator with one queued job: the job lands once in the Failure Sink,
the active set and the Result Sink stay empty. -/
theorem claim_C4_witness :
    (simulate_alpha (List.replicate 5 .httpError)).result = some none ∧
    (load_new_alpha_and_simulate (List.replicate 5 .httpError)
        ⟨.absent, [⟨1, true, 40⟩], [], [], [], 3, 20⟩).failSink = [⟨1, true, 40⟩] ∧
    (load_new_alpha_and_simulate (List.replicate 5 .httpError)
        ⟨.absent, [⟨1, true, 40⟩], [], [], [], 3, 20⟩).active = [] ∧
    (load_new_alpha_and_simulate (List.replicate 5 .httpError)
        ⟨.absent, [⟨1, true, 40⟩], [], [], [], 3, 20⟩).resultSink = [] :=
  claim_C4_submit_exhausted (List.replicate 5 .httpError)
    ⟨.absent, [⟨1, true, 40⟩], [], [], [], 3, 20⟩ ⟨1, true, 40⟩ []
    (by decide) (by decide) rfl (by decide)

/-- C8: during polling, a 401 triggers a re-login (exactly one `sign_in`
call) and, when the renewal yields a session, the poll is retried
exactly once (two progress requests in total), the retried response
being returned on success; any network error yields no response, issues
no renewal, and `check_simulation_status` keeps the handle in the active
set untouched for the next cycle, writing nothing to the sinks. -/
theorem claim_C8_poll_error_handling :
    (∀ sec : PollNet, (check_simulation_progress .auth401 true sec).2.1 = 1 ∧
      (check_simulation_progress .auth401 true sec).2.2 = 2) ∧
    (∀ r : PollResponse, (check_simulation_progress .auth401 true (.ok r)).1 = some r) ∧
    (∀ (lo : Bool) (sec : PollNet), check_simulation_progress .netError lo sec = (none, 0, 1)) ∧
    (∀ (env : PollEnv) (s : MState) (h : Nat), pollHandle env h = none → h ∈ s.active →
      h ∈ (check_simulation_status env s).active ∧
      (check_simulation_status env s).failSink = s.failSink) := by
  refine ⟨?_, fun r => rfl, fun lo sec => rfl, ?_⟩
  · intro sec
    cases sec <;> exact ⟨rfl, rfl⟩
  · intro env s h hp hmem
    refine ⟨List.mem_filter.mpr ⟨hmem, ?_⟩, rfl⟩
    simp [handleKept, hp]

/-- C8 witness: a handle whose poll hits a network error stays in the
active set and the Failure Sink is untouched. -/
theorem claim_C8_witness :
    7 ∈ (check_simulation_status (fun _ => (.netError, true, .netError))
        ⟨.absent, [], [7], [], [], 3, 20⟩).active ∧
    (check_simulation_status (fun _ => (.netError, true, .netError))
        ⟨.absent, [], [7], [], [], 3, 20⟩).failSink = [] :=
  claim_C8_poll_error_handling.2.2.2 (fun _ => (.netError, true, .netError))
    ⟨.absent, [], [7], [], [], 3, 20⟩ 7 rfl (by decide)

/-- C5 counterexample: a state with nothing left to do (empty in-memory
queue, empty active set, queue file holding only its header row) whose
header line is longer than 50 bytes.  The loop-exit condition of
`manage_simulations` tests `os.path.getsize(...) > 50`, so it evaluates
false here and the loop keeps running (50 further cycles shown), even
though no unconsumed queue file remains — refuting "terminates exactly
when ... no unconsumed queue file remains". -/
theorem claim_C5_counterexample :
    queueDrained wideHeaderState = true ∧
    loopBreak wideHeaderState = false ∧
    (manage_simulations happyPollEnv happySubmit 8 50 wideHeaderState).terminated = false := by
  decide

/-- C5 (amended): the control loop exits exactly when the in-memory
queue is empty, the active set is empty, and the queue file is absent or
at most 50 bytes — a heuristic for "no unconsumed queue file remains"
that misjudges header lines longer than 50 bytes.  In particular, for a
queue of 120 jobs with `maxConcurrent = 3`, `batchSize = 20`, every
submission succeeding and every poll immediately terminal-success, the
run terminates with exactly 120 Result Sink records, an empty queue
file (header only) and an empty active set. -/
theorem claim_C5_amended_scenario :
    scenarioOut.terminated = true ∧
    scenarioOut.state.resultSink.length = 120 ∧
    scenarioOut.state.active = [] ∧
    scenarioOut.state.simQueue = [] ∧
    dataRows scenarioOut.state.queueFile = [] := by
  decide

end AlphaWorker
